import Mathlib

/-!
Verification development for the BEHAVE survey-to-BIDS converter
(MRI-Lab-Graz/behave).

The Python sources are shallowly embedded as executable Lean functions.
Spreadsheet cell payloads are modelled as missing values (NaN), integers,
or strings; character-class tests model the ASCII fragment of the
corresponding Python string operations and regular-expression classes
(the sources only ever feed them ASCII identifiers and ASCII metadata
keys).  Stateful file-system effects (which TSV files a run writes,
which sidecar JSON files exist) are modelled as explicit lists of paths.
-/

namespace Behave

/-- ASCII letter test: the class A-Za-z used by the item-name pattern in
normalize_item_name (excel_handler.py line 257). -/
def isAsciiLetterB (c : Char) : Bool :=
  (65 ≤ c.toNat && c.toNat ≤ 90) || (97 ≤ c.toNat && c.toNat ≤ 122)

/-- ASCII digit test: the regular-expression class for a digit. -/
def isAsciiDigitB (c : Char) : Bool :=
  48 ≤ c.toNat && c.toNat ≤ 57

/-- ASCII whitespace characters, the ASCII fragment of the Python
whitespace class: space, tab, newline, carriage return, vertical tab,
form feed. -/
def isPySpaceB (c : Char) : Bool :=
  c.toNat = 32 || c.toNat = 9 || c.toNat = 10 || c.toNat = 13 ||
    c.toNat = 11 || c.toNat = 12

/-- Separator class of the item-name pattern: one whitespace character,
a hyphen (code 45) or an underscore (code 95). -/
def isSepB (c : Char) : Bool :=
  isPySpaceB c || c.toNat = 45 || c.toNat = 95

/-- ASCII lower-case letter test. -/
def isLowerB (c : Char) : Bool :=
  97 ≤ c.toNat && c.toNat ≤ 122

/-- ASCII upper-case letter test. -/
def isUpperB (c : Char) : Bool :=
  65 ≤ c.toNat && c.toNat ≤ 90

/-- ASCII upper-casing of one character, the ASCII fragment of the Python
upper() method. -/
def upChar (c : Char) : Char :=
  if isLowerB c then Char.ofNat (c.toNat - 32) else c

/-- ASCII lower-casing of one character, the ASCII fragment of the Python
lower() method. -/
def lowChar (c : Char) : Char :=
  if isUpperB c then Char.ofNat (c.toNat + 32) else c

/-- ASCII lower-casing of a string. -/
def lowerStr (s : String) : String :=
  String.mk (s.data.map lowChar)

/-- Strip ASCII whitespace from both ends of a character list, the ASCII
fragment of the Python strip() method. -/
def stripL (cs : List Char) : List Char :=
  ((cs.dropWhile isPySpaceB).reverse.dropWhile isPySpaceB).reverse

/-- Strip ASCII whitespace from both ends of a string. -/
def pyStrip (s : String) : String :=
  String.mk (stripL s.data)

/-- Test whether the pattern string occurs as a contiguous substring,
the Python in operator on strings. -/
def substrB (pat s : String) : Bool :=
  decide (pat.data <:+: s.data)

/-- Test whether s starts with the prefix p, the Python startswith
method. -/
def startsWithPy (s p : String) : Bool :=
  decide (p.data <+: s.data)

/-- Test whether s ends with the final segment p, the Python endswith
method and the trailing part of a glob pattern. -/
def endsWithPy (s p : String) : Bool :=
  decide (p.data <:+ s.data)

/-- Numeric value of a list of ASCII digits. -/
def decDigitsVal (cs : List Char) : Nat :=
  cs.foldl (fun a c => a * 10 + (c.toNat - 48)) 0

/-- Parse a nonempty all-digit character list, else fail. -/
def digitsVal (cs : List Char) : Option Nat :=
  if cs ≠ [] ∧ cs.all isAsciiDigitB then some (decDigitsVal cs) else none

/-- Python int() applied to a string: surrounding whitespace is
stripped, an optional sign is accepted, then a nonempty run of digits
(ASCII fragment; underscores between digits are not modelled because no
BEHAVE input uses them). -/
def parsePyInt (s : String) : Option Int :=
  match stripL s.data with
  | [] => none
  | c :: rest =>
    if c = '-' then (digitsVal rest).map (fun n => -(n : Int))
    else if c = '+' then (digitsVal rest).map (fun n => (n : Int))
    else (digitsVal (c :: rest)).map (fun n => (n : Int))

/-- Left-pad a string with zeros to the given width, the Python zfill
method as used on all-digit strings (the only use sites in the sources
guard against signs). -/
def zfillDigits (w : Nat) (s : String) : String :=
  String.mk (List.replicate (w - s.length) '0' ++ s.data)

end Behave

namespace Behave

/-- Cell payloads of a spreadsheet as pandas delivers them to the BEHAVE
code: a missing value (NaN), an integer, or a string.  Floating-point
cells with a fractional part are outside the modelled fragment; whole
floats behave like their integer value in every code path the claims
touch. -/
inductive CellV where
  | na : CellV
  | intv (n : Int) : CellV
  | strv (s : String) : CellV
deriving DecidableEq

/-- Test for a missing value, pandas isna on a cell. -/
def isNAB : CellV → Bool
  | CellV.na => true
  | _ => false

/-- Python str() of a cell value: NaN prints as nan, integers in
decimal, strings unchanged. -/
def pyStr : CellV → String
  | CellV.na => "nan"
  | CellV.intv n => toString n
  | CellV.strv s => s

/-- Python int() of a cell value: fails (raises) on NaN, is the
identity on integers, and parses strings. -/
def pyIntOf : CellV → Option Int
  | CellV.na => none
  | CellV.intv n => some n
  | CellV.strv s => parsePyInt s

end Behave

namespace Behave

/-!
Name Normalizer (normalize_item_name, identical in excel_handler.py
lines 246-260, behave.py lines 667-676 and read_session_data.py lines
10-19):

  item_name = str(item_name)
  match = re.match(r"([A-Za-z]+)[\s\-_]?(\d+)$", item_name)
  if match: return match.group(1).upper() + match.group(2)
  return item_name

The pattern is anchored at the start by re.match; the dollar anchor
matches at the end of the string or just before one final newline.
Since the three character classes are pairwise disjoint, a successful
backtracking match is exactly the unique decomposition
letters ++ (optional one separator) ++ digits of the anchored span.
-/

/-- Continuation of the matcher once the maximal letter group L and
the remainder of the label are split: the remainder must be digits, or
one separator followed by digits. -/
def matchCoreTail (sep : Char → Bool) (L : List Char) :
    List Char → Option (List Char × List Char)
  | [] => none
  | c :: rs =>
    if L.isEmpty then none
    else if isAsciiDigitB c then
      if rs.all isAsciiDigitB then some (L, c :: rs) else none
    else if sep c then
      if rs = [] then none
      else if rs.all isAsciiDigitB then some (L, rs) else none
    else none

/-- Core matcher for the pattern letters, optional separator, digits,
spanning the whole character list, parameterized by the separator
class.  Returns the two capture groups. -/
def matchCoreWith (sep : Char → Bool) (cs : List Char) :
    Option (List Char × List Char) :=
  matchCoreTail sep (cs.takeWhile isAsciiLetterB) (cs.dropWhile isAsciiLetterB)

/-- Core matcher with the separator class of the source pattern. -/
def matchCore (cs : List Char) : Option (List Char × List Char) :=
  matchCoreWith isSepB cs

/-- Full matcher including the Python dollar-anchor tolerance for one
trailing newline: the anchored span is the whole list or, failing
that, the list short of one final newline. -/
def pyMatch (cs : List Char) : Option (List Char × List Char) :=
  (matchCore cs).or
    (if cs.getLast? = some '\n' then matchCore cs.dropLast else none)

/-- Shallow embedding of normalize_item_name on an already stringified
label: on a match the upper-cased letter group is glued to the digit
group, otherwise the label is returned unchanged. -/
def normalize_item_name (s : String) : String :=
  ((pyMatch s.data).map (fun g => String.mk (g.fst.map upChar ++ g.snd))).getD s

end Behave

namespace Behave

/-- One spreadsheet row: a finite map from column name to cell, given as
a function.  A result of none means the column is absent from the frame
(pandas KeyError territory); rows of one frame are total on its columns. -/
abbrev Row : Type := String → Option CellV

/-- Sidecar entry for one survey item: a Description plus optionally a
Levels mapping or a Units string.  Level maps are association lists in
insertion order, mirroring a Python dict. -/
structure Entry where
  description : CellV
  levels : Option (List (String × CellV))
  units : Option String
deriving DecidableEq

/-- Python dict assignment d[k] = v on an association list: an existing
key keeps its position and gets the new value, a new key is appended. -/
def dictInsert (k : String) (v : CellV) (l : List (String × CellV)) :
    List (String × CellV) :=
  if l.any (fun p => p.fst = k) then
    l.map (fun p => if p.fst = k then (k, v) else p)
  else l ++ [(k, v)]

/-- Level count read from one optional likert_scale cell: 0 when the
column is absent (KeyError) or the cell is NaN or unparseable. -/
def likertCountCell : Option CellV → Int
  | none => 0
  | some c => if isNAB c then 0 else (pyIntOf c).getD 0

/-- Number of Likert levels of a row: int(row[likert_scale]) when the
column exists and the cell is not NaN and parses, else 0
(bids_converter.py lines 132-135, behave.py lines 296-299). -/
def likertCount (r : Row) : Int :=
  likertCountCell (r "likert_scale")

/-- Name of the i-th level-value column: levels for i = 0, levels.i
afterwards. -/
def levelColName (i : Nat) : String :=
  if i = 0 then "levels" else "levels." ++ toString i

/-- Name of the i-th level-description column. -/
def descColName (i : Nat) : String :=
  if i = 0 then "leveldescription" else "leveldescription." ++ toString i

/-- One step of level collection: the level is stored only when both
paired cells exist, neither is NaN, and the level cell parses as an
integer; the key is the decimal string of the level value and f is
applied to the stored description cell. -/
def levelStep (f : CellV → CellV) (acc : List (String × CellV)) :
    Option CellV → Option CellV → List (String × CellV)
  | some lc, some dc =>
    if isNAB lc || isNAB dc then acc
    else (pyIntOf lc).elim acc (fun n => dictInsert (toString n) (f dc) acc)
  | _, _ => acc

/-- Collect the Likert levels of a row for the given list of level
indices.  The transform f is applied to the stored description cell
(str() in bids_converter.py, identity in behave.py). -/
def buildLevels (f : CellV → CellV) (r : Row) : List Nat →
    List (String × CellV) → List (String × CellV)
  | [], acc => acc
  | i :: is, acc =>
    buildLevels f r is (levelStep f acc (r (levelColName i)) (r (descColName i)))

/-- Embedding of BIDSConverter._add_likert_levels
(bids_converter.py lines 130-156). -/
def addLikertLevels (r : Row) (e : Entry) : Entry :=
  let n := likertCount r
  if n ≤ 0 then e
  else
    let lv := buildLevels (fun c => CellV.strv (pyStr c)) r
      (List.range n.toNat) []
    if lv = [] then e else Entry.mk e.description (some lv) e.units

/-- Units handling against one optional leveldescription cell: units
are set from the stripped stringified cell when it exists and is not
NaN. -/
def addUnitsCell (e : Entry) : Option CellV → Entry
  | some c =>
    if isNAB c then e
    else Entry.mk e.description e.levels (some (pyStrip (pyStr c)))
  | none => e

/-- Embedding of BIDSConverter._add_units (bids_converter.py lines
158-165): units are only set when the entry has no Levels and the
leveldescription cell exists and is not NaN. -/
def addUnits (r : Row) (e : Entry) : Entry :=
  if e.levels.isSome then e else addUnitsCell e (r "leveldescription")

/-- Embedding of BIDSConverter._create_item_entry (bids_converter.py
lines 112-128): build the Description, then add Likert levels, then
units. -/
def createItemEntry (r : Row) (idx : Nat) (anonymize : Bool) : Entry :=
  let desc :=
    if anonymize then CellV.strv ("Question " ++ toString (idx + 1))
    else
      CellV.strv (pyStr ((r "itemdescription").getD
        (CellV.strv "No description available")))
  addUnits r (addLikertLevels r (Entry.mk desc none none))

end Behave

namespace Behave

/-- Values that may sit at the top level of a task sidecar: a survey
item entry or a raw metadata scalar. -/
inductive SidecarVal where
  | item (e : Entry) : SidecarVal
  | scalar (v : CellV) : SidecarVal
deriving DecidableEq

/-- Task sidecar document: association list from key to value in
insertion order, mirroring the Python json_data dict. -/
abbrev Sidecar : Type := List (String × SidecarVal)

/-- Python dict assignment on a sidecar document. -/
def sidecarInsert (k : String) (v : SidecarVal) (l : Sidecar) : Sidecar :=
  if l.any (fun p => p.fst = k) then
    l.map (fun p => if p.fst = k then (k, v) else p)
  else l ++ [(k, v)]

/-- Item key of a main-sheet row in convert_excel_to_json_updated
(behave.py line 283): the stripped itemname cell when present and not
NaN, else the literal Unknown Item; a non-string cell makes the strip()
call raise (modelled as an error). -/
def itemKeyOf (r : Row) : Except String String :=
  match r "itemname" with
  | none => Except.ok "Unknown Item"
  | some CellV.na => Except.ok "Unknown Item"
  | some (CellV.strv s) => Except.ok (pyStrip s)
  | some (CellV.intv _) => Except.error "AttributeError: strip on non-string"

/-- Strip hyphen and underscore characters from a key, the re.sub on
behave.py line 341. -/
def cleanKey (s : String) : String :=
  String.mk (s.data.filter (fun c => !(c.toNat = 45 || c.toNat = 95)))

/-- Item entry built by the main loop of convert_excel_to_json_updated
(behave.py lines 282-342): raw Description cell, Levels with raw
description cells when likert_scale is positive and at least one level
pair is valid, else Units from a present non-NaN leveldescription cell. -/
def behaveEntry (r : Row) (idx : Nat) (anonymize : Bool) : Entry :=
  let desc :=
    if anonymize then CellV.strv ("Question " ++ toString idx)
    else (r "itemdescription").getD (CellV.strv "No description available")
  let n := likertCount r
  if n > 0 then
    let lv := buildLevels (fun c => c) r (List.range n.toNat) []
    if lv = [] then Entry.mk desc none none
    else Entry.mk desc (some lv) none
  else addUnitsCell (Entry.mk desc none none) (r "leveldescription")

/-- Main-sheet loop of convert_excel_to_json_updated: rows paired with
their 0-based index; rows whose key lower-cases to an itemname prefix
are skipped, the others are inserted under their cleaned key. -/
def processMainRows (anonymize : Bool) :
    List (Nat × Row) → Sidecar → Except String Sidecar
  | [], acc => Except.ok acc
  | (idx, r) :: rest, acc =>
    match itemKeyOf r with
    | Except.error e => Except.error e
    | Except.ok key =>
      if startsWithPy (lowerStr key) "itemname" then
        processMainRows anonymize rest acc
      else
        processMainRows anonymize rest
          (sidecarInsert (cleanKey key)
            (SidecarVal.item (behaveEntry r idx anonymize)) acc)

/-- Metadata-sheet loop of convert_excel_to_json_updated (behave.py
lines 344-357): row[key name] raises when the column is absent; the
description cell defaults to an empty string; pairs with a NaN key or
value are skipped, the others are assigned directly into the document. -/
def processMetaRows : List Row → Sidecar → Except String Sidecar
  | [], acc => Except.ok acc
  | r :: rest, acc =>
    match r "key name" with
    | none => Except.error "KeyError: key name"
    | some k =>
      let v := match r "description" with
        | some c => c
        | none => CellV.strv ""
      if isNAB k || isNAB v then processMetaRows rest acc
      else processMetaRows rest (sidecarInsert (pyStr k) (SidecarVal.scalar v) acc)

/-- Sidecar document built from the three sheets of a task workbook by
convert_excel_to_json_updated after the sheet-count check passed. -/
def buildSidecarBehave (main sheet2 sheet3 : List Row) (anonymize : Bool) :
    Except String Sidecar :=
  match processMainRows anonymize main.enum [] with
  | Except.error e => Except.error e
  | Except.ok s1 =>
    match processMetaRows sheet2 s1 with
    | Except.error e => Except.error e
    | Except.ok s2 => processMetaRows sheet3 s2

/-- Sheet-count precondition of convert_excel_to_json_updated
(behave.py lines 256-261) and of load_and_validate_excel
(excel_handler.py lines 108-117) with the default configuration
min_required_sheets = 3: fewer than three sheets is a structure error. -/
def sheetCountCheck (sheets : List (List Row)) : Except String Unit :=
  if sheets.length < 3 then
    Except.error "The Excel file must contain at least three sheets."
  else Except.ok ()

/-- Embedding of convert_excel_to_json_updated (behave.py lines
253-362) on a workbook given as its list of sheets: the check runs
first and aborts the conversion (so no sidecar is written), otherwise
sheets 0, 1 and 2 are processed into the sidecar document. -/
def convert_excel_to_json_updated (sheets : List (List Row))
    (anonymize : Bool) : Except String Sidecar :=
  match sheetCountCheck sheets with
  | Except.error e => Except.error e
  | Except.ok _ =>
    buildSidecarBehave (sheets.getD 0 []) (sheets.getD 1 [])
      (sheets.getD 2 []) anonymize

end Behave

namespace Behave

/-- Identifier cell as it reaches the two id normalizers: Python None
or pandas NaN, a string, or an integer. -/
inductive IdV where
  | noneV : IdV
  | strv (s : String) : IdV
  | intv (n : Int) : IdV
deriving DecidableEq

/-- String form of a non-missing identifier. -/
def idStr : IdV → String
  | IdV.noneV => "None"
  | IdV.strv s => s
  | IdV.intv n => toString n

/-- Collapse of a leading sub- run, the re.sub of sub-+ by sub- in
validators.py line 42: a string starting with sub- keeps the literal
prefix and drops every further leading hyphen. -/
def collapseSubPrefix (s : String) : String :=
  if startsWithPy s "sub-" then
    "sub-" ++ String.mk ((s.data.drop 3).dropWhile (fun c => c.toNat = 45))
  else s

/-- Matching of a fully anchored digit run with minimum length m, the
regular expressions of validators.py line 47 and behave.py line 513;
the dollar anchor again tolerates one final newline. -/
def pyFullDigits (m : Nat) (s : String) : Bool :=
  let core := fun cs : List Char =>
    decide (m ≤ cs.length) && !cs.isEmpty && cs.all isAsciiDigitB
  core s.data ||
    (s.data.getLast? = some '\n' && core s.data.dropLast)

/-- Embedding of validate_subject_id (validators.py lines 26-56). -/
def validate_subject_id (v : IdV) : String :=
  match v with
  | IdV.noneV => "sub-unknown"
  | _ =>
    let s0 := pyStrip (idStr v)
    let s1 := collapseSubPrefix s0
    if startsWithPy s1 "sub-" then s1
    else if pyFullDigits 1 s1 then "sub-" ++ zfillDigits 3 s1
    else "sub-" ++ s1

/-- Decimal rendering of an integer zero-padded to total width 3, the
format specifier 03d of behave.py line 516. -/
def intFormat3 (n : Int) : String :=
  if n < 0 then "-" ++ zfillDigits 2 (toString (-n))
  else zfillDigits 3 (toString n)

/-- Embedding of normalize_id (behave.py lines 509-517): strings keep a
sub- prefix, strings of three or more digits are prefixed, integers are
zero-padded to three digits and prefixed, everything else becomes
sub-unknown. -/
def normalize_id (v : IdV) : String :=
  match v with
  | IdV.strv s =>
    if startsWithPy s "sub-" then s
    else if pyFullDigits 3 s then "sub-" ++ s
    else "sub-unknown"
  | IdV.intv n => "sub-" ++ intFormat3 n
  | IdV.noneV => "sub-unknown"

/-- Embedding of validate_session_id (validators.py lines 59-78): NaN
becomes 01, a stripped all-digit string is zero-padded to at least two
digits, anything else is returned stripped. -/
def validate_session_id (v : CellV) : String :=
  if isNAB v then "01"
  else
    let t := pyStrip (pyStr v)
    if t.data ≠ [] && t.data.all isAsciiDigitB then zfillDigits 2 t else t

end Behave

namespace Behave

/-- Spreadsheet with a positional header, the shape pandas exposes when
whole column lists are reassigned: row cells line up with header
positions. -/
structure PosSheet where
  header : List String
  rows : List (List CellV)

/-- Column renaming of behave.py line 384: id to subject_id and ses to
session. -/
def renameIdSes (c : String) : String :=
  if c = "id" then "subject_id" else if c = "ses" then "session" else c

/-- Session-sheet columns after the two normalization passes and the
rename (behave.py lines 379, 384 and 390). -/
def sessionCols (hdr : List String) : List String :=
  ((hdr.map normalize_item_name).map renameIdSes).map normalize_item_name

/-- Columns of the session sheet that contain the task name as a
substring (behave.py line 391). -/
def taskColumnsOf (hdr : List String) (task_name : String) : List String :=
  (sessionCols hdr).filter (fun c => substrB task_name c)

/-- Index of the first task-definition column whose lower-cased name is
itemname (behave.py line 396). -/
def findItemCol (hdr : List String) : Option Nat :=
  hdr.findIdx? (fun c => lowerStr c = "itemname")

/-- Task items of behave.py line 401: the itemname column of the task
sheet, entries containing the substring example (case-insensitively)
dropped, the rest normalized after stringification. -/
def taskItemsOf (taskRows : List (List CellV)) (j : Nat) : List String :=
  (taskRows.map (fun row => row.getD j CellV.na)).filterMap (fun cell =>
    if substrB "example" (lowerStr (pyStr cell)) then none
    else some (normalize_item_name (pyStr cell)))

/-- Subject-id fixup inside the row loop (behave.py lines 433-435):
collapse a leading sub- run, then prefix sub- when absent. -/
def fixSubjectPrefix (s : String) : String :=
  let s1 := collapseSubPrefix s
  if startsWithPy s1 "sub-" then s1 else "sub-" ++ s1

/-- Output path written for one session row (behave.py lines 438-444):
subject folder, session folder, beh folder, and the BIDS TSV name. -/
def rowOutputPath (task_name sub : String) (ses : CellV) : String :=
  let sub2 := fixSubjectPrefix sub
  sub2 ++ "/ses-" ++ pyStr ses ++ "/beh/" ++ sub2 ++ "_ses-" ++ pyStr ses ++
    "_task-" ++ lowerStr task_name ++ "_beh.tsv"

/-- Per-row processing of the filtered frame: the subject cell must be
a string (the re.sub on behave.py line 433 raises on any other type),
the output path is derived and the single-row TSV is written there. -/
def writeSessionRows (cols : List String) (task_name : String) :
    List (List CellV) → Except String (List String)
  | [] => Except.ok []
  | row :: rest =>
    match row.getD (cols.findIdx (fun c => c = "subject_id")) CellV.na with
    | CellV.strv sub =>
      let ses := row.getD (cols.findIdx (fun c => c = "session")) CellV.na
      match writeSessionRows cols task_name rest with
      | Except.error e => Except.error e
      | Except.ok paths => Except.ok (rowOutputPath task_name sub ses :: paths)
    | _ => Except.error "TypeError: re.sub on non-string subject id"

/-- Embedding of create_bids_structure_and_copy_data (behave.py lines
364-471) returning the list of TSV paths the call writes.  The id and
ses columns must exist after normalization, the task sheet must have an
itemname column, and when the matched columns meet no declared task
item the filtered frame has exactly the two identifier columns and
nothing is written. -/
def create_bids_structure_and_copy_data (sess : PosSheet) (task : PosSheet)
    (task_name : String) : Except String (List String) :=
  let cols1 := sess.header.map normalize_item_name
  if "id" ∈ cols1 ∧ "ses" ∈ cols1 then
    let cols3 := sessionCols sess.header
    let task_columns := taskColumnsOf sess.header task_name
    match findItemCol task.header with
    | none =>
      Except.error "The task definition file must contain an itemname column."
    | some j =>
      let task_items := taskItemsOf task.rows j
      let relevant :=
        ["subject_id", "session"] ++ task_columns.filter (fun c => c ∈ task_items)
      if relevant.length = 2 then Except.ok []
      else writeSessionRows cols3 task_name sess.rows
  else Except.error "The input session file must contain id and ses columns."

end Behave

namespace Behave

/-- Result of the per-column type coercion for categorical-numeric
participants columns: either a nullable integer column or a string
column. -/
inductive TypedCol where
  | intCol (xs : List (Option Int)) : TypedCol
  | strCol (xs : List String) : TypedCol
deriving DecidableEq

/-- Embedding of pd.to_numeric with coercion on one cell: NaN stays
missing, integers pass through, strings are parsed as optionally signed
decimal numerals (ASCII fragment; exponent forms are not modelled),
unparseable strings coerce to NaN. -/
def toNumericOf : CellV → Option ℚ
  | CellV.na => none
  | CellV.intv n => some (n : ℚ)
  | CellV.strv s =>
    let core := fun cs : List Char =>
      let ip := cs.takeWhile isAsciiDigitB
      match cs.dropWhile isAsciiDigitB with
      | [] => if ip.isEmpty then none else some ((decDigitsVal ip : ℚ))
      | c :: fs =>
        if c = '.' ∧ fs.all isAsciiDigitB ∧ (ip ≠ [] ∨ fs ≠ []) then
          some ((decDigitsVal ip : ℚ) + (decDigitsVal fs : ℚ) / ((10 : ℚ) ^ fs.length))
        else none
    match stripL s.data with
    | '-' :: cs => (core cs).map (fun q => -q)
    | '+' :: cs => core cs
    | cs => core cs

/-- Wholeness test of one coerced cell, the elementwise test
numeric_col % 1 == 0: false on NaN. -/
def ratIsWhole : Option ℚ → Bool
  | some q => q.den = 1
  | none => false

/-- Embedding of the cat_num branch of convert_data_types
(excel_handler.py lines 353-358): when every coerced value is non-null
and whole the column becomes nullable integer, otherwise the raw column
is stringified. -/
def convertCatNum (xs : List CellV) : TypedCol :=
  let nums := xs.map toNumericOf
  if nums.all Option.isSome && nums.all ratIsWhole then
    TypedCol.intCol (nums.map (Option.map Rat.num))
  else TypedCol.strCol (xs.map pyStr)

end Behave

namespace Behave

/-- File inside the BIDS output tree, as the directory chain below the
output root plus the file name. -/
structure FSFile where
  dirs : List String
  name : String
deriving DecidableEq

/-- Glob test of behave.py line 183: a task sidecar directly under the
output root, name matching task-*_beh.json. -/
def isRootTaskJson (f : FSFile) : Bool :=
  f.dirs = [] && startsWithPy f.name "task-" && endsWithPy f.name "_beh.json"

/-- Task name recovered from a sidecar file name by the two str.replace
calls of behave.py line 187 (each removes every occurrence). -/
def taskNameOf (name : String) : String :=
  (name.replace "task-" "").replace "_beh.json" ""

/-- Glob test of behave.py line 190: a TSV anywhere below the root
whose name matches *task-t_beh.tsv. -/
def matchesTsv (t : String) (f : FSFile) : Bool :=
  endsWithPy f.name ("task-" ++ t ++ "_beh.tsv")

/-- Existence of a matching TSV in the tree. -/
def hasMatchingTsv (t : String) (fs : List FSFile) : Bool :=
  fs.any (matchesTsv t)

/-- Embedding of cleanup_unused_task_json (behave.py lines 176-198) as
a transformation of the output file set: every root task sidecar with
no matching TSV anywhere in the tree is deleted.  The loop only ever
deletes json-suffixed names and only ever searches tsv-suffixed names,
so deletions during iteration never change later search results and
the loop equals one simultaneous filter. -/
def cleanup_unused_task_json (fs : List FSFile) : List FSFile :=
  fs.filter (fun f => !(isRootTaskJson f && !hasMatchingTsv (taskNameOf f.name) fs))

end Behave

namespace Behave

/-- Separator class spelled out by the specification sentence for the
Name Normalizer: exactly one space, hyphen or underscore. -/
def isClaimSepB (c : Char) : Bool :=
  c.toNat = 32 || c.toNat = 45 || c.toNat = 95

/-- Matcher following the claim wording for the Name Normalizer: the
whole label is letters, at most one space/hyphen/underscore separator,
and trailing digits, with no further tolerance. -/
def claimPatternMatch (cs : List Char) : Option (List Char × List Char) :=
  matchCoreWith isClaimSepB cs

/-- Declarative decomposition of a label into a nonempty letter group,
an optional single separator from the class sep, and a nonempty digit
group. -/
def LettersSepDigits (sep : Char → Bool) (cs L D : List Char) : Prop :=
  L ≠ [] ∧ D ≠ [] ∧ (∀ c ∈ L, isAsciiLetterB c = true) ∧
    (∀ c ∈ D, isAsciiDigitB c = true) ∧
    (cs = L ++ D ∨ ∃ c, sep c = true ∧ cs = L ++ c :: D)

/-- Declarative description of a successful match of the source
pattern, including the dollar-anchor tolerance for one final newline. -/
def SourcePatternForm (cs L D : List Char) : Prop :=
  LettersSepDigits isSepB cs L D ∨
    (cs.getLast? = some '\n' ∧ LettersSepDigits isSepB cs.dropLast L D)

/-- Concrete task-definition row with likert_scale 3 and a duplicated
level value: pairs (1, a), (1, b), (2, c). -/
def dupLevelRow : Row := fun k =>
  if k = "likert_scale" then some (CellV.intv 3)
  else if k = "levels" then some (CellV.intv 1)
  else if k = "leveldescription" then some (CellV.strv "a")
  else if k = "levels.1" then some (CellV.intv 1)
  else if k = "leveldescription.1" then some (CellV.strv "b")
  else if k = "levels.2" then some (CellV.intv 2)
  else if k = "leveldescription.2" then some (CellV.strv "c")
  else none

/-- Concrete task-definition row with likert_scale 3 and three valid
distinct level pairs. -/
def threeLevelRow : Row := fun k =>
  if k = "likert_scale" then some (CellV.intv 3)
  else if k = "levels" then some (CellV.intv 1)
  else if k = "leveldescription" then some (CellV.strv "never")
  else if k = "levels.1" then some (CellV.intv 2)
  else if k = "leveldescription.1" then some (CellV.strv "sometimes")
  else if k = "levels.2" then some (CellV.intv 3)
  else if k = "leveldescription.2" then some (CellV.strv "often")
  else none

/-- Concrete task-definition row with no likert_scale column and a
non-blank leveldescription cell. -/
def unitRow : Row := fun k =>
  if k = "leveldescription" then some (CellV.strv "mg")
  else none

/-- Concrete workbook with only two sheets. -/
def twoSheetWorkbook : List (List Row) := [[], []]

/-- Concrete workbook with three empty sheets. -/
def threeSheetWorkbook : List (List Row) := [[], [], []]

/-- Concrete session sheet whose only extra column belongs to another
task. -/
def fooSessionSheet : PosSheet :=
  PosSheet.mk ["id", "ses", "FOO1"]
    [[CellV.strv "001", CellV.intv 1, CellV.intv 4]]

/-- Concrete task sheet declaring the single item BAR1. -/
def barTaskSheet : PosSheet :=
  PosSheet.mk ["itemname"] [[CellV.strv "BAR1"]]

/-- Concrete categorical-numeric column holding a whole number and a
missing value. -/
def intNullColumn : List CellV := [CellV.intv 1, CellV.na]

/-- Concrete categorical-numeric column holding one non-numeric
string. -/
def strOnlyColumn : List CellV := [CellV.strv "x"]

/-- Valid level pair in the sense of the claim wording: the level cell
of index i exists, is not NaN and parses as the integer n, and the
paired description cell exists, is not NaN and is non-blank. -/
def ValidLevelPair (r : Row) (i : Nat) (n : Int) (d : CellV) : Prop :=
  ∃ lc, r (levelColName i) = some lc ∧ isNAB lc = false ∧
    pyIntOf lc = some n ∧ r (descColName i) = some d ∧ isNAB d = false ∧
    pyStr d ≠ ""

end Behave

namespace Behave

/-!
Helper lemmas about the character classes and the anchored matcher.
-/

theorem digit_not_letter {c : Char} (h : isAsciiDigitB c = true) :
    isAsciiLetterB c = false := by
  simp only [isAsciiDigitB, Bool.and_eq_true, decide_eq_true_eq] at h
  simp only [isAsciiLetterB, Bool.or_eq_false_iff, Bool.and_eq_false_iff,
    decide_eq_false_iff_not]
  omega

theorem sep_not_letter {c : Char} (h : isSepB c = true) :
    isAsciiLetterB c = false := by
  simp only [isSepB, isPySpaceB, Bool.or_eq_true, decide_eq_true_eq] at h
  simp only [isAsciiLetterB, Bool.or_eq_false_iff, Bool.and_eq_false_iff,
    decide_eq_false_iff_not]
  omega

theorem sep_not_digit {c : Char} (h : isSepB c = true) :
    isAsciiDigitB c = false := by
  simp only [isSepB, isPySpaceB, Bool.or_eq_true, decide_eq_true_eq] at h
  simp only [isAsciiDigitB, Bool.and_eq_false_iff, decide_eq_false_iff_not]
  omega

theorem claimSep_not_letter {c : Char} (h : isClaimSepB c = true) :
    isAsciiLetterB c = false := by
  simp only [isClaimSepB, Bool.or_eq_true, decide_eq_true_eq] at h
  simp only [isAsciiLetterB, Bool.or_eq_false_iff, Bool.and_eq_false_iff,
    decide_eq_false_iff_not]
  omega

theorem claimSep_not_digit {c : Char} (h : isClaimSepB c = true) :
    isAsciiDigitB c = false := by
  simp only [isClaimSepB, Bool.or_eq_true, decide_eq_true_eq] at h
  simp only [isAsciiDigitB, Bool.and_eq_false_iff, decide_eq_false_iff_not]
  omega

theorem takeWhile_append_of_all {α : Type} {p : α → Bool} :
    ∀ (L rest : List α), (∀ a ∈ L, p a = true) →
      (∀ c cs, rest = c :: cs → p c = false) →
      (L ++ rest).takeWhile p = L ∧ (L ++ rest).dropWhile p = rest := by
  intro L
  induction L with
  | nil =>
    intro rest _ hr
    cases rest with
    | nil => exact ⟨rfl, rfl⟩
    | cons c cs =>
      constructor
      · simp [List.takeWhile_cons, hr c cs rfl]
      · simp [List.dropWhile_cons, hr c cs rfl]
  | cons a L ih =>
    intro rest hL hr
    have hpa : p a = true := hL a (by simp)
    have hrec := ih rest (fun x hx => hL x (by simp [hx])) hr
    constructor
    · simp [List.takeWhile_cons, hpa, hrec.1]
    · simp [List.dropWhile_cons, hpa, hrec.2]

theorem matchCoreWith_eq_some_iff {sep : Char → Bool}
    (hsl : ∀ c, sep c = true → isAsciiLetterB c = false)
    (hsd : ∀ c, sep c = true → isAsciiDigitB c = false)
    {cs L D : List Char} :
    matchCoreWith sep cs = some (L, D) ↔ LettersSepDigits sep cs L D := by
  constructor
  · intro h
    unfold matchCoreWith at h
    cases hdw : cs.dropWhile isAsciiLetterB with
    | nil => rw [hdw] at h; exact absurd h (by simp [matchCoreTail])
    | cons c rs =>
      rw [hdw] at h
      rw [matchCoreTail] at h
      have hcs : cs = cs.takeWhile isAsciiLetterB ++ (c :: rs) := by
        rw [← hdw, List.takeWhile_append_dropWhile]
      have hlet : ∀ x ∈ cs.takeWhile isAsciiLetterB, isAsciiLetterB x = true :=
        fun x hx => List.mem_takeWhile_imp hx
      split_ifs at h with h1 h2 h3 h4 h5 h6
      · obtain ⟨rfl, rfl⟩ := Prod.mk.injEq .. ▸ Option.some.injEq .. ▸ h
        refine ⟨by simpa using h1, by simp, hlet, ?_, Or.inl hcs⟩
        intro x hx
        rcases List.mem_cons.mp hx with rfl | hx
        · exact h2
        · exact (List.all_eq_true.mp h3) x hx
      · obtain ⟨rfl, rfl⟩ := Prod.mk.injEq .. ▸ Option.some.injEq .. ▸ h
        refine ⟨by simpa using h1, h5, hlet, fun x hx => (List.all_eq_true.mp h6) x hx,
          Or.inr ⟨c, h4, hcs⟩⟩
  · intro hform
    obtain ⟨hLne, hDne, hLl, hDd, hshape⟩ := hform
    rcases hshape with hcs | ⟨c, hc, hcs⟩
    · cases D with
      | nil => exact absurd rfl hDne
      | cons d ds =>
        have hd : isAsciiDigitB d = true := hDd d (by simp)
        have hdec := takeWhile_append_of_all L (d :: ds) hLl
          (fun x xs hx => by
            obtain ⟨rfl, rfl⟩ := List.cons.injEq .. ▸ hx
            exact digit_not_letter hd)
        subst hcs
        unfold matchCoreWith
        rw [hdec.2, hdec.1, matchCoreTail]
        have : L.isEmpty = false := by simpa using hLne
        simp only [this, Bool.false_eq_true, if_false, hd, if_true]
        have : ds.all isAsciiDigitB = true :=
          List.all_eq_true.mpr (fun x hx => hDd x (by simp [hx]))
        simp [this]
    · have hdec := takeWhile_append_of_all L (c :: D) hLl
        (fun x xs hx => by
          obtain ⟨rfl, rfl⟩ := List.cons.injEq .. ▸ hx
          exact hsl c hc)
      subst hcs
      unfold matchCoreWith
      rw [hdec.2, hdec.1, matchCoreTail]
      have h1 : L.isEmpty = false := by simpa using hLne
      have h2 : isAsciiDigitB c = false := hsd c hc
      have h3 : D.all isAsciiDigitB = true := List.all_eq_true.mpr hDd
      simp [h1, h2, hc, h3, hDne]

theorem matchCore_eq_some_iff {cs L D : List Char} :
    matchCore cs = some (L, D) ↔ LettersSepDigits isSepB cs L D :=
  matchCoreWith_eq_some_iff (fun _ => sep_not_letter) (fun _ => sep_not_digit)

end Behave

namespace Behave

theorem last_of_nonempty_all {α : Type} {p : α → Bool} {l : List α}
    (hne : l ≠ []) (hall : ∀ x ∈ l, p x = true) :
    ∃ d, l.getLast? = some d ∧ p d = true := by
  cases hd : l.getLast? with
  | none => exact absurd (List.getLast?_eq_none_iff.mp hd) hne
  | some d => exact ⟨d, rfl, hall d (List.mem_of_getLast?_eq_some hd)⟩

theorem matchCore_last_digit {cs L D : List Char}
    (h : matchCore cs = some (L, D)) :
    ∃ d, cs.getLast? = some d ∧ isAsciiDigitB d = true := by
  obtain ⟨_, hDne, _, hDd, hshape⟩ := matchCore_eq_some_iff.mp h
  obtain ⟨d, hdl, hdd⟩ := last_of_nonempty_all hDne hDd
  rcases hshape with hcs | ⟨c, _, hcs⟩
  · subst hcs
    exact ⟨d, by simp [List.getLast?_append, hdl], hdd⟩
  · subst hcs
    refine ⟨d, ?_, hdd⟩
    rw [show L ++ c :: D = (L ++ [c]) ++ D by simp, List.getLast?_append, hdl]
    rfl

theorem pyMatch_eq_some_iff {cs L D : List Char} :
    pyMatch cs = some (L, D) ↔ SourcePatternForm cs L D := by
  constructor
  · intro h
    unfold pyMatch at h
    cases hm : matchCore cs with
    | some r =>
      rw [hm, Option.or_some, Option.some.injEq] at h
      subst h
      exact Or.inl (matchCore_eq_some_iff.mp hm)
    | none =>
      rw [hm, Option.none_or] at h
      by_cases hl : cs.getLast? = some '\n'
      · rw [if_pos hl] at h
        exact Or.inr ⟨hl, matchCore_eq_some_iff.mp h⟩
      · rw [if_neg hl] at h
        exact absurd h (by simp)
  · intro hform
    rcases hform with hform | ⟨hlast, hform⟩
    · have hm : matchCore cs = some (L, D) := matchCore_eq_some_iff.mpr hform
      unfold pyMatch
      rw [hm, Option.or_some]
    · have hm2 : matchCore cs.dropLast = some (L, D) :=
        matchCore_eq_some_iff.mpr hform
      have hmn : matchCore cs = none := by
        cases hm : matchCore cs with
        | none => rfl
        | some r =>
          obtain ⟨L2, D2⟩ := r
          obtain ⟨d, hd, hdd⟩ := matchCore_last_digit hm
          rw [hlast, Option.some.injEq] at hd
          subst hd
          exact absurd hdd (by decide)
      unfold pyMatch
      rw [hmn, Option.none_or, if_pos hlast]
      exact hm2

theorem toNat_charOfNat {n : Nat} (h : n < 55296) : (Char.ofNat n).toNat = n := by
  rw [Char.ofNat, dif_pos (Or.inl h)]
  rfl

theorem upChar_toNat_of_lower {c : Char} (h : isLowerB c = true) :
    (upChar c).toNat = c.toNat - 32 := by
  have h2 := h
  simp only [isLowerB, Bool.and_eq_true, decide_eq_true_eq] at h2
  rw [upChar, if_pos h]
  exact toNat_charOfNat (by omega)

theorem upChar_letter {c : Char} (h : isAsciiLetterB c = true) :
    isAsciiLetterB (upChar c) = true := by
  by_cases hl : isLowerB c = true
  · have ht := upChar_toNat_of_lower hl
    simp only [isLowerB, Bool.and_eq_true, decide_eq_true_eq] at hl
    simp only [isAsciiLetterB, Bool.or_eq_true, Bool.and_eq_true,
      decide_eq_true_eq, ht]
    omega
  · rw [upChar, if_neg hl]
    exact h

theorem upChar_upChar (c : Char) : upChar (upChar c) = upChar c := by
  by_cases hl : isLowerB c = true
  · have ht := upChar_toNat_of_lower hl
    simp only [isLowerB, Bool.and_eq_true, decide_eq_true_eq] at hl
    have : isLowerB (upChar c) = false := by
      simp only [isLowerB, Bool.and_eq_false_iff, decide_eq_false_iff_not, ht]
      omega
    rw [upChar, if_neg (by simp [this])]
  · have hc : upChar c = c := by rw [upChar, if_neg hl]
    rw [hc]
    exact hc

end Behave

namespace Behave

/-- C1 (amended): the Name Normalizer rewrites the four spec examples
as stated (ads-01 to ADS01, ADS_2 to ADS2, trial_type and id
unchanged); in general a label is rewritten to its upper-cased letter
group glued to its digit group exactly when it decomposes as letters,
at most one separator from the whitespace/hyphen/underscore class, and
trailing digits, where the anchor also tolerates one final newline
(SourcePatternForm); every other label is returned unchanged. -/
theorem normalize_item_name_characterization :
    normalize_item_name "ads-01" = "ADS01" ∧
    normalize_item_name "ADS_2" = "ADS2" ∧
    normalize_item_name "trial_type" = "trial_type" ∧
    normalize_item_name "id" = "id" ∧
    ∀ s : String,
      (∃ L D, SourcePatternForm s.data L D ∧
        normalize_item_name s = String.mk (L.map upChar ++ D)) ∨
      ((∀ L D, ¬ SourcePatternForm s.data L D) ∧ normalize_item_name s = s) := by
  refine ⟨by decide, by decide, by decide, by decide, ?_⟩
  intro s
  cases h : pyMatch s.data with
  | some r =>
    obtain ⟨L, D⟩ := r
    exact Or.inl ⟨L, D, pyMatch_eq_some_iff.mp h,
      by simp [normalize_item_name, h]⟩
  | none =>
    refine Or.inr ⟨?_, by simp [normalize_item_name, h]⟩
    intro L D hform
    rw [pyMatch_eq_some_iff.mpr hform] at h
    exact absurd h (by simp)

/-- C1 counterexample: the label AB-tab-1 uses a tab separator, so it
is not of the claimed letters/space-hyphen-underscore/digits form (the
claim-side matcher rejects it), yet the code rewrites it to AB1 rather
than returning it unchanged. -/
theorem normalize_item_name_claim_counterexample :
    claimPatternMatch ("AB\t1" : String).data = none ∧
    normalize_item_name "AB\t1" = "AB1" ∧
    ("AB\t1" : String) ≠ "AB1" := by
  refine ⟨by decide, by decide, by decide⟩

/-- C10: the Name Normalizer is idempotent; applying
normalize_item_name to its own output returns that output unchanged. -/
theorem normalize_item_name_idempotent (s : String) :
    normalize_item_name (normalize_item_name s) = normalize_item_name s := by
  cases h : pyMatch s.data with
  | none =>
    have hs : normalize_item_name s = s := by simp [normalize_item_name, h]
    rw [hs]
    exact hs
  | some r =>
    obtain ⟨L, D⟩ := r
    have hs : normalize_item_name s = String.mk (L.map upChar ++ D) := by
      simp [normalize_item_name, h]
    have hform := pyMatch_eq_some_iff.mp h
    have hfacts : L ≠ [] ∧ D ≠ [] ∧ (∀ c ∈ L, isAsciiLetterB c = true) ∧
        (∀ c ∈ D, isAsciiDigitB c = true) := by
      rcases hform with ⟨h1, h2, h3, h4, _⟩ | ⟨_, h1, h2, h3, h4, _⟩
      · exact ⟨h1, h2, h3, h4⟩
      · exact ⟨h1, h2, h3, h4⟩
    have hform2 : LettersSepDigits isSepB (L.map upChar ++ D) (L.map upChar) D :=
      ⟨by simpa using hfacts.1, hfacts.2.1,
       fun c hc => by
         obtain ⟨a, ha, rfl⟩ := List.mem_map.mp hc
         exact upChar_letter (hfacts.2.2.1 a ha),
       hfacts.2.2.2, Or.inl rfl⟩
    have hm2 : pyMatch (String.mk (L.map upChar ++ D)).data =
        some (L.map upChar, D) :=
      pyMatch_eq_some_iff.mpr (Or.inl hform2)
    rw [hs]
    simp only [normalize_item_name, hm2, Option.map_some', Option.getD_some]
    have hmap : (L.map upChar).map upChar = L.map upChar := by
      rw [List.map_map]
      exact List.map_congr_left (fun a _ => upChar_upChar a)
    rw [hmap]

end Behave

namespace Behave

/-- C4 counterexample: the claim fails on both id-normalization
variants; validate_subject_id maps the blank string to sub- instead of
sub-unknown, and normalize_id maps the two-digit string 42 to
sub-unknown instead of sub-042. -/
theorem participant_id_claim_counterexample :
    validate_subject_id (IdV.strv "") = "sub-" ∧
    ("sub-" : String) ≠ "sub-unknown" ∧
    normalize_id (IdV.strv "42") = "sub-unknown" ∧
    ("sub-unknown" : String) ≠ "sub-042" :=
  ⟨by decide, by decide, by decide, by decide⟩

/-- C4 (amended): validate_subject_id (validators.py) maps 42 to
sub-042, integer 7 to sub-007, keeps sub-9, and maps a missing
identifier to sub-unknown, but maps the blank string to sub-;
normalize_id (behave.py) agrees on integer 7, sub-9 and missing, maps
blank to sub-unknown, but maps the two-digit string 42 to sub-unknown
because it only prefixes strings of three or more digits. -/
theorem participant_id_normalization_examples :
    validate_subject_id (IdV.strv "42") = "sub-042" ∧
    validate_subject_id (IdV.intv 7) = "sub-007" ∧
    validate_subject_id (IdV.strv "sub-9") = "sub-9" ∧
    validate_subject_id IdV.noneV = "sub-unknown" ∧
    validate_subject_id (IdV.strv "") = "sub-" ∧
    normalize_id (IdV.intv 7) = "sub-007" ∧
    normalize_id (IdV.strv "sub-9") = "sub-9" ∧
    normalize_id IdV.noneV = "sub-unknown" ∧
    normalize_id (IdV.strv "") = "sub-unknown" ∧
    normalize_id (IdV.strv "42") = "sub-unknown" := by
  refine ⟨by decide, by decide, by decide, by decide, by decide,
    by decide, by decide, by decide, by decide, by decide⟩

/-- C7: cleanup_unused_task_json is idempotent; a second run deletes
nothing, because every sidecar kept by the first run is witnessed by a
matching TSV, TSV names never satisfy the deleted-sidecar glob, and so
every witness survives the first run. -/
theorem cleanup_unused_task_json_idempotent (fs : List FSFile) :
    cleanup_unused_task_json (cleanup_unused_task_json fs) =
      cleanup_unused_task_json fs := by
  conv_lhs => rw [cleanup_unused_task_json]
  apply List.filter_eq_self.mpr
  intro f hf
  obtain ⟨hffs, hpf⟩ := List.mem_filter.mp hf
  by_cases hroot : isRootTaskJson f = true
  · have hhas : hasMatchingTsv (taskNameOf f.name) fs = true := by
      simpa [hroot] using hpf
    obtain ⟨g, hg, hmg⟩ := List.any_eq_true.mp hhas
    have hgroot : isRootTaskJson g = false := by
      cases hval : isRootTaskJson g with
      | false => rfl
      | true =>
        exfalso
        have hjson : ("_beh.json" : String).data <:+ g.name.data := by
          have h2 := hval
          simp only [isRootTaskJson, Bool.and_eq_true] at h2
          have h3 := h2.2
          simpa [endsWithPy] using h3
        have htsv : ("_beh.tsv" : String).data <:+ g.name.data := by
          have h1 : (("task-" ++ taskNameOf f.name ++ "_beh.tsv") : String).data
              <:+ g.name.data := by
            simpa [matchesTsv, endsWithPy] using hmg
          apply List.IsSuffix.trans _ h1
          rw [String.data_append]
          exact List.suffix_append _ _
        rcases List.suffix_or_suffix_of_suffix htsv hjson with hcase | hcase
        · exact absurd hcase (by decide)
        · exact absurd hcase (by decide)
    have hgkeep : g ∈ cleanup_unused_task_json fs := by
      apply List.mem_filter.mpr
      exact ⟨hg, by simp [hgroot]⟩
    have hhas2 : hasMatchingTsv (taskNameOf f.name)
        (cleanup_unused_task_json fs) = true :=
      List.any_eq_true.mpr ⟨g, hgkeep, hmg⟩
    simp [hroot, hhas2]
  · simp [Bool.of_not_eq_true hroot]

/-- C9: validate_session_id maps a missing value to 01, zero-pads the
stripped string form to at least two characters when it is a nonempty
run of digits (keeping it as a final segment), and otherwise returns
the stripped string form unchanged. -/
theorem session_id_normalization (v : CellV) :
    (v = CellV.na → validate_session_id v = "01") ∧
    (v ≠ CellV.na →
      ((pyStrip (pyStr v)).data ≠ [] ∧
          ∀ c ∈ (pyStrip (pyStr v)).data, isAsciiDigitB c = true) →
        validate_session_id v = zfillDigits 2 (pyStrip (pyStr v)) ∧
        (zfillDigits 2 (pyStrip (pyStr v))).length =
          max 2 (pyStrip (pyStr v)).length ∧
        (pyStrip (pyStr v)).data <:+ (zfillDigits 2 (pyStrip (pyStr v))).data) ∧
    (v ≠ CellV.na →
      ¬((pyStrip (pyStr v)).data ≠ [] ∧
          ∀ c ∈ (pyStrip (pyStr v)).data, isAsciiDigitB c = true) →
        validate_session_id v = pyStrip (pyStr v)) := by
  have hna : v ≠ CellV.na → isNAB v = false := by
    intro hv
    cases v with
    | na => exact absurd rfl hv
    | intv n => rfl
    | strv s => rfl
  refine ⟨?_, ?_, ?_⟩
  · intro hv
    subst hv
    rfl
  · intro hv hd
    have hcond : (decide ((pyStrip (pyStr v)).data ≠ []) &&
        (pyStrip (pyStr v)).data.all isAsciiDigitB) = true := by
      simp [hd.1, List.all_eq_true.mpr hd.2]
    refine ⟨?_, ?_, ?_⟩
    · simp only [validate_session_id, hna hv, Bool.false_eq_true, if_false]
      rw [if_pos hcond]
    · show (List.replicate (2 - (pyStrip (pyStr v)).length) '0' ++
        (pyStrip (pyStr v)).data).length = _
      rw [List.length_append, List.length_replicate]
      have hlen : (pyStrip (pyStr v)).length = (pyStrip (pyStr v)).data.length := rfl
      omega
    · exact List.suffix_append _ _
  · intro hv hnd
    simp only [validate_session_id, hna hv, Bool.false_eq_true, if_false]
    rw [if_neg (by
      simp only [Bool.and_eq_true, decide_eq_true_eq, List.all_eq_true]
      exact hnd)]

end Behave

namespace Behave

theorem dictInsert_notmem {k : String} {v : CellV}
    {l : List (String × CellV)} (h : ∀ p ∈ l, p.fst ≠ k) :
    dictInsert k v l = l ++ [(k, v)] := by
  rw [dictInsert, if_neg]
  intro hc
  obtain ⟨p, hp, hpk⟩ := List.any_eq_true.mp hc
  exact h p hp (by simpa using hpk)

theorem buildLevels_cons_valid {f : CellV → CellV} {r : Row} {i : Nat}
    {is : List Nat} {acc : List (String × CellV)} {lc dc : CellV} {n : Int}
    (hl : r (levelColName i) = some lc) (hd : r (descColName i) = some dc)
    (hlna : isNAB lc = false) (hdna : isNAB dc = false)
    (hn : pyIntOf lc = some n) :
    buildLevels f r (i :: is) acc =
      buildLevels f r is (dictInsert (toString n) (f dc) acc) := by
  rw [buildLevels, hl, hd, levelStep]
  simp [hlna, hdna, hn]

theorem addLikertLevels_units (r : Row) (e : Entry) :
    (addLikertLevels r e).units = e.units := by
  simp only [addLikertLevels]
  split_ifs <;> rfl

theorem addLikertLevels_description (r : Row) (e : Entry) :
    (addLikertLevels r e).description = e.description := by
  simp only [addLikertLevels]
  split_ifs <;> rfl

theorem addUnitsCell_levels (e : Entry) (o : Option CellV) :
    (addUnitsCell e o).levels = e.levels := by
  cases o with
  | none => rfl
  | some c =>
    rw [addUnitsCell]
    split_ifs <;> rfl

theorem addUnits_not_both (r : Row) (e : Entry) (hu : e.units = none) :
    ¬((addUnits r e).levels.isSome = true ∧
      (addUnits r e).units.isSome = true) := by
  intro hboth
  obtain ⟨hl, hu2⟩ := hboth
  rw [addUnits] at hl hu2
  by_cases hs : e.levels.isSome = true
  · rw [if_pos hs] at hu2
    rw [hu] at hu2
    exact absurd hu2 (by simp)
  · rw [if_neg hs] at hl
    rw [addUnitsCell_levels] at hl
    exact hs hl

/-- C3: a parsed item entry never carries both a Levels mapping and a
Units field; moreover a row whose likert_scale is blank (column absent
or cell NaN) or parses to 0, with a present, non-NaN, non-blank
leveldescription cell, yields a Units field and no Levels field. -/
theorem levels_units_exclusive (r : Row) (idx : Nat) (anonymize : Bool) :
    (¬((createItemEntry r idx anonymize).levels.isSome = true ∧
       (createItemEntry r idx anonymize).units.isSome = true)) ∧
    (∀ d : CellV,
      (r "likert_scale" = none ∨ r "likert_scale" = some CellV.na ∨
        (∃ c, r "likert_scale" = some c ∧ pyIntOf c = some 0)) →
      r "leveldescription" = some d → isNAB d = false → pyStr d ≠ "" →
        (createItemEntry r idx anonymize).units = some (pyStrip (pyStr d)) ∧
        (createItemEntry r idx anonymize).levels = none) := by
  constructor
  · rw [createItemEntry]
    apply addUnits_not_both
    rw [addLikertLevels_units]
  · intro d hblank hld hdna hdb
    have hcount : likertCount r = 0 := by
      rcases hblank with h | h | ⟨c, hc, hcv⟩
      · rw [likertCount, h, likertCountCell]
      · rw [likertCount, h, likertCountCell]
        rfl
      · rw [likertCount, hc, likertCountCell]
        by_cases hna : isNAB c = true
        · rw [if_pos hna]
        · rw [if_neg hna, hcv]
          rfl
    have hskip : ∀ e : Entry, addLikertLevels r e = e := by
      intro e
      rw [addLikertLevels]
      simp [hcount]
    rw [createItemEntry, hskip, addUnits]
    simp [hld, addUnitsCell, hdna]

/-- Witness for levels_units_exclusive: the row with no likert_scale
column and leveldescription mg yields Units mg and no Levels. -/
theorem levels_units_exclusive_witness :
    (createItemEntry unitRow 0 false).units =
      some (pyStrip (pyStr (CellV.strv "mg"))) ∧
    (createItemEntry unitRow 0 false).levels = none :=
  (levels_units_exclusive unitRow 0 false).2 (CellV.strv "mg")
    (Or.inl (by decide)) (by decide) (by decide) (by decide)

end Behave

namespace Behave

/-- C2 (amended): a task-definition row whose likert_scale cell parses
as the integer 3 and which carries three valid (level,
leveldescription) pairs whose level values have pairwise distinct
decimal strings yields a Levels mapping with exactly those three
entries, each keyed by the decimal string of its level value. -/
theorem likert_three_levels (r : Row) (n0 n1 n2 : Int) (d0 d1 d2 : CellV)
    (idx : Nat) (anonymize : Bool)
    (hlk : ∃ lk, r "likert_scale" = some lk ∧ isNAB lk = false ∧
      pyIntOf lk = some 3)
    (hp0 : ValidLevelPair r 0 n0 d0)
    (hp1 : ValidLevelPair r 1 n1 d1)
    (hp2 : ValidLevelPair r 2 n2 d2)
    (hk01 : toString n0 ≠ toString n1)
    (hk02 : toString n0 ≠ toString n2)
    (hk12 : toString n1 ≠ toString n2) :
    (createItemEntry r idx anonymize).levels =
      some [(toString n0, CellV.strv (pyStr d0)),
            (toString n1, CellV.strv (pyStr d1)),
            (toString n2, CellV.strv (pyStr d2))] := by
  obtain ⟨lk, hlk1, hlk2, hlk3⟩ := hlk
  obtain ⟨l0, hl0, hl0na, hl0v, hd0, hd0na, _⟩ := hp0
  obtain ⟨l1, hl1, hl1na, hl1v, hd1, hd1na, _⟩ := hp1
  obtain ⟨l2, hl2, hl2na, hl2v, hd2, hd2na, _⟩ := hp2
  have hcount : likertCount r = 3 := by
    rw [likertCount, hlk1, likertCountCell, if_neg (by simp [hlk2]), hlk3]
    rfl
  have e0 : dictInsert (toString n0) (CellV.strv (pyStr d0)) [] =
      [(toString n0, CellV.strv (pyStr d0))] :=
    dictInsert_notmem (by simp)
  have e1 : dictInsert (toString n1) (CellV.strv (pyStr d1))
      [(toString n0, CellV.strv (pyStr d0))] =
      [(toString n0, CellV.strv (pyStr d0)),
       (toString n1, CellV.strv (pyStr d1))] := by
    rw [dictInsert_notmem]
    · rfl
    · intro p hp
      simp only [List.mem_singleton] at hp
      subst hp
      exact hk01
  have e2 : dictInsert (toString n2) (CellV.strv (pyStr d2))
      [(toString n0, CellV.strv (pyStr d0)),
       (toString n1, CellV.strv (pyStr d1))] =
      [(toString n0, CellV.strv (pyStr d0)),
       (toString n1, CellV.strv (pyStr d1)),
       (toString n2, CellV.strv (pyStr d2))] := by
    rw [dictInsert_notmem]
    · rfl
    · intro p hp
      rcases List.mem_cons.mp hp with rfl | hp
      · exact hk02
      · simp only [List.mem_singleton] at hp
        subst hp
        exact hk12
  have hlv : buildLevels (fun c => CellV.strv (pyStr c)) r [0, 1, 2] [] =
      [(toString n0, CellV.strv (pyStr d0)),
       (toString n1, CellV.strv (pyStr d1)),
       (toString n2, CellV.strv (pyStr d2))] := by
    rw [buildLevels_cons_valid hl0 hd0 hl0na hd0na hl0v, e0,
        buildLevels_cons_valid hl1 hd1 hl1na hd1na hl1v, e1,
        buildLevels_cons_valid hl2 hd2 hl2na hd2na hl2v, e2,
        buildLevels]
  have hrange : List.range (Int.toNat (likertCount r)) = [0, 1, 2] := by
    rw [hcount]
    decide
  have hadd : ∀ desc : CellV,
      addLikertLevels r (Entry.mk desc none none) =
        Entry.mk desc
          (some [(toString n0, CellV.strv (pyStr d0)),
                 (toString n1, CellV.strv (pyStr d1)),
                 (toString n2, CellV.strv (pyStr d2))]) none := by
    intro desc
    simp only [addLikertLevels]
    rw [if_neg (by rw [hcount]; norm_num), hrange, hlv,
      if_neg (by simp)]
  simp only [createItemEntry]
  rw [hadd, addUnits, if_pos (by simp)]

/-- Witness for likert_three_levels: the concrete row with pairs
(1, never), (2, sometimes), (3, often) parses to exactly those three
Levels entries. -/
theorem likert_three_levels_witness :
    (createItemEntry threeLevelRow 0 false).levels =
      some [("1", CellV.strv "never"), ("2", CellV.strv "sometimes"),
            ("3", CellV.strv "often")] := by
  have h := likert_three_levels threeLevelRow 1 2 3 (CellV.strv "never")
    (CellV.strv "sometimes") (CellV.strv "often") 0 false
    ⟨CellV.intv 3, by decide, by decide, by decide⟩
    ⟨CellV.intv 1, by decide, by decide, by decide, by decide, by decide,
      by decide⟩
    ⟨CellV.intv 2, by decide, by decide, by decide, by decide, by decide,
      by decide⟩
    ⟨CellV.intv 3, by decide, by decide, by decide, by decide, by decide,
      by decide⟩
    (by decide) (by decide) (by decide)
  rw [h]
  decide

/-- C2 counterexample: the concrete row dupLevelRow has likert_scale 3
and three valid (level, leveldescription) pairs, namely (1, a), (1, b)
and (2, c), yet its Levels mapping holds only two entries because the
duplicated key 1 is overwritten rather than added. -/
theorem likert_three_levels_counterexample :
    dupLevelRow "likert_scale" = some (CellV.intv 3) ∧
    ValidLevelPair dupLevelRow 0 1 (CellV.strv "a") ∧
    ValidLevelPair dupLevelRow 1 1 (CellV.strv "b") ∧
    ValidLevelPair dupLevelRow 2 2 (CellV.strv "c") ∧
    (createItemEntry dupLevelRow 0 false).levels =
      some [("1", CellV.strv "b"), ("2", CellV.strv "c")] ∧
    ((createItemEntry dupLevelRow 0 false).levels.getD []).length = 2 := by
  refine ⟨by decide,
    ⟨CellV.intv 1, by decide, by decide, by decide, by decide, by decide,
      by decide⟩,
    ⟨CellV.intv 1, by decide, by decide, by decide, by decide, by decide,
      by decide⟩,
    ⟨CellV.intv 2, by decide, by decide, by decide, by decide, by decide,
      by decide⟩,
    by decide, by decide⟩

end Behave

namespace Behave

/-- C5: a task workbook with fewer than three sheets makes
convert_excel_to_json_updated fail with the structure error, so no
sidecar document is produced; for a workbook with at least three
sheets the sheet-count precondition check passes. -/
theorem sheet_count_precondition (sheets : List (List Row))
    (anonymize : Bool) :
    (sheets.length < 3 →
      convert_excel_to_json_updated sheets anonymize =
        Except.error "The Excel file must contain at least three sheets.") ∧
    (3 ≤ sheets.length → sheetCountCheck sheets = Except.ok ()) := by
  constructor
  · intro h
    rw [convert_excel_to_json_updated, sheetCountCheck, if_pos h]
  · intro h
    rw [sheetCountCheck, if_neg (by omega)]

/-- Witness for sheet_count_precondition: a two-sheet workbook fails
with the structure error and a three-sheet workbook passes the check. -/
theorem sheet_count_precondition_witness :
    convert_excel_to_json_updated twoSheetWorkbook false =
      Except.error "The Excel file must contain at least three sheets." ∧
    sheetCountCheck threeSheetWorkbook = Except.ok () :=
  ⟨(sheet_count_precondition twoSheetWorkbook false).1 (by decide),
   (sheet_count_precondition threeSheetWorkbook false).2 (by decide)⟩

/-- C6: when the session sheet has id and ses columns after
normalization, the task sheet has an itemname column, and no
task-matched session column is among the declared task items, the
Session Extractor returns successfully with zero output files. -/
theorem empty_intersection_skips (sess task : PosSheet) (task_name : String)
    (j : Nat)
    (hid : "id" ∈ sess.header.map normalize_item_name)
    (hses : "ses" ∈ sess.header.map normalize_item_name)
    (hj : findItemCol task.header = some j)
    (hint : (taskColumnsOf sess.header task_name).filter
      (fun c => c ∈ taskItemsOf task.rows j) = []) :
    create_bids_structure_and_copy_data sess task task_name =
      Except.ok [] := by
  simp only [create_bids_structure_and_copy_data]
  rw [if_pos ⟨hid, hses⟩, hj]
  simp only [hint, List.append_nil]
  rfl

/-- Witness for empty_intersection_skips: the session sheet with
columns id, ses, FOO1 paired with the task BAR declaring only BAR1
produces no output file and no error. -/
theorem empty_intersection_skips_witness :
    create_bids_structure_and_copy_data fooSessionSheet barTaskSheet "BAR" =
      Except.ok [] :=
  empty_intersection_skips fooSessionSheet barTaskSheet "BAR" 0
    (by decide) (by decide) (by decide) (by decide)

/-- C8 (amended): the categorical-numeric coercion yields the nullable
integer column exactly when every cell of the column coerces to a
non-null whole number; otherwise (any null or any non-whole value) the
raw column is stringified. -/
theorem cat_num_coercion (xs : List CellV) :
    (convertCatNum xs =
        TypedCol.intCol ((xs.map toNumericOf).map (Option.map Rat.num)) ↔
      ∀ c ∈ xs, ∃ n : Int, toNumericOf c = some ((n : Int) : ℚ)) ∧
    ((¬ ∀ c ∈ xs, ∃ n : Int, toNumericOf c = some ((n : Int) : ℚ)) →
      convertCatNum xs = TypedCol.strCol (xs.map pyStr)) := by
  have hcond : ((xs.map toNumericOf).all Option.isSome &&
      (xs.map toNumericOf).all ratIsWhole) = true ↔
      ∀ c ∈ xs, ∃ n : Int, toNumericOf c = some ((n : Int) : ℚ) := by
    rw [Bool.and_eq_true, List.all_eq_true, List.all_eq_true]
    constructor
    · intro hpair c hc
      obtain ⟨h1, h2⟩ := hpair
      have hs := h1 _ (List.mem_map_of_mem toNumericOf hc)
      have hw := h2 _ (List.mem_map_of_mem toNumericOf hc)
      cases ho : toNumericOf c with
      | none => rw [ho] at hs; exact absurd hs (by simp)
      | some q =>
        rw [ho] at hw
        have hden : q.den = 1 := by simpa [ratIsWhole] using hw
        refine ⟨q.num, ?_⟩
        rw [Rat.coe_int_num_of_den_eq_one hden]
    · intro h
      constructor
      · intro x hx
        obtain ⟨c, hc, rfl⟩ := List.mem_map.mp hx
        obtain ⟨n, hn⟩ := h c hc
        rw [hn]
        rfl
      · intro x hx
        obtain ⟨c, hc, rfl⟩ := List.mem_map.mp hx
        obtain ⟨n, hn⟩ := h c hc
        rw [hn]
        simp [ratIsWhole, Rat.den_intCast]
  constructor
  · constructor
    · intro heq
      by_cases hc : ((xs.map toNumericOf).all Option.isSome &&
          (xs.map toNumericOf).all ratIsWhole) = true
      · exact hcond.mp hc
      · simp only [convertCatNum] at heq
        rw [if_neg hc] at heq
        exact absurd heq (by simp)
    · intro h
      simp only [convertCatNum]
      rw [if_pos (hcond.mpr h)]
  · intro h
    simp only [convertCatNum]
    rw [if_neg (fun hc => h (hcond.mp hc))]

/-- Witness for cat_num_coercion: a column holding the single
non-numeric string x falls back to the string column. -/
theorem cat_num_coercion_witness :
    convertCatNum strOnlyColumn = TypedCol.strCol ["x"] := by
  have hnone : toNumericOf (CellV.strv "x") = none := by decide
  have h := (cat_num_coercion strOnlyColumn).2 (by
    intro hall
    obtain ⟨n, hn⟩ := hall (CellV.strv "x") (by simp [strOnlyColumn])
    rw [hnone] at hn
    exact absurd hn (by simp))
  rw [h]
  decide

/-- C8 counterexample: in the column [1, NaN] every non-null value is
a whole number, yet the coercion produces the string column, because
the code additionally requires that no value at all be null. -/
theorem cat_num_coercion_counterexample :
    toNumericOf (CellV.intv 1) = some ((1 : Int) : ℚ) ∧
    toNumericOf CellV.na = none ∧
    convertCatNum intNullColumn = TypedCol.strCol ["1", "nan"] ∧
    convertCatNum intNullColumn ≠
      TypedCol.intCol ((intNullColumn.map toNumericOf).map (Option.map Rat.num)) := by
  refine ⟨by decide, by decide, by decide, by decide⟩

end Behave

namespace Behave

/-- Witness for session_id_normalization: a missing session becomes 01,
the digit string 3 is zero-padded to 03, and the non-digit string a1 is
returned stripped and unchanged. -/
theorem session_id_normalization_witness :
    validate_session_id CellV.na = "01" ∧
    validate_session_id (CellV.strv "3") =
      zfillDigits 2 (pyStrip (pyStr (CellV.strv "3"))) ∧
    validate_session_id (CellV.strv "a1") = pyStrip (pyStr (CellV.strv "a1")) :=
  ⟨(session_id_normalization CellV.na).1 rfl,
   ((session_id_normalization (CellV.strv "3")).2.1 (by decide)
     (by decide)).1,
   (session_id_normalization (CellV.strv "a1")).2.2 (by decide) (by decide)⟩

end Behave
